import Mathlib

/-!
# Verification of chiselc (Chisel compiler wrapper script)

Shallow embedding of the two revisions of the chiselc build script
(`src/chiselc.py`, the legacy script, and `src/chiselc/chiselc.py`, the
packaged revision) and proofs about the dependency resolver, the classpath
override merge, the ebuild-variable parser and the build pipeline.

Conventions:
  - Python strings become `String`, lists become `List`.
  - File-system state and external-process results are passed explicitly.
  - `sys.exit(n)` / raised exceptions become explicit result constructors.
  - String primitives are implemented over `String.data` so that every
    definition evaluates inside the kernel.
-/

namespace Chiselc

/-! ## Python string primitives used by the scripts -/

/-- Python `str.split()` whitespace predicate: space, tab, newline, carriage
return, vertical tab, form feed. -/
def pyIsSpace (c : Char) : Bool :=
  c = ' ' || c = '\t' || c = '\n' || c = '\r' || c = '\x0b' || c = '\x0c'

/-- Helper for `pySplit`: walk the characters, accumulating the current token
(in reverse); a whitespace character ends the current token, and empty tokens
are discarded (Python `str.split()` with no argument). -/
def pySplitAux : List Char → List Char → List String
  | [], acc => if acc = [] then [] else [String.mk acc.reverse]
  | c :: cs, acc =>
    if pyIsSpace c then
      if acc = [] then pySplitAux cs []
      else String.mk acc.reverse :: pySplitAux cs []
    else pySplitAux cs (c :: acc)

/-- Python `str.split()` with no separator: split on runs of whitespace and
discard empty pieces. -/
def pySplit (s : String) : List String :=
  pySplitAux s.data []

/-- Python `str.startswith(pre)`. -/
def pyStartsWith (s pre : String) : Bool :=
  pre.data.isPrefixOf s.data

/-- Python `s[1:]`: drop the first character. -/
def pyDropOne (s : String) : String :=
  String.mk (s.data.drop 1)

/-- Final path component, as `os.path.basename` on POSIX: everything after the
last `/` (empty when the path ends in `/`). -/
def basename (p : String) : String :=
  String.mk (p.data.foldl (fun acc c => if c = '/' then [] else acc ++ [c]) [])

/-- Model of `os.path.join(a, b)` on POSIX: if `b` is absolute it replaces `a`;
otherwise `a` and `b` are joined with a `/` unless `a` is empty or already
ends in `/`. -/
def pathJoin (a b : String) : String :=
  if pyStartsWith b "/" then b
  else if a = "" ∨ a.data.getLastD ' ' = '/' then a ++ b
  else a ++ "/" ++ b

/-- Python `s.rfind("/")` followed by `s[sep+1:]`, as in
`get_noncategory_pkgname`: the part of the package name after the last `/`
(the whole name when there is no `/`). -/
def get_noncategory_pkgname (name : String) : String :=
  basename name

/-! ## `parse_portage_depends` (identical in both revisions)

```python
def parse_portage_depends(depends_string):
  depends_list = depends_string.split()
  out_list = []
  for depend in depends_list:
    if not depend.startswith('='):
      raise NotImplementedError("Portage dependencies must have versions explicitly specified, '%s' is not yet supported" % depend)
    out_list.append(depend[1:])
  return out_list
```
-/

/-- The loop of `parse_portage_depends`: raise on the first token not starting
with `=`, otherwise strip the leading `=` from each token. -/
def parseDependsTokens : List String → Except String (List String)
  | [] => .ok []
  | t :: ts =>
    if pyStartsWith t "=" then
      (parseDependsTokens ts).map (fun rest => pyDropOne t :: rest)
    else
      .error ("Portage dependencies must have versions explicitly specified, '"
              ++ t ++ "' is not yet supported")

/-- Function `parse_portage_depends`: whitespace-split the input and process tokens. -/
def parse_portage_depends (dependsString : String) : Except String (List String) :=
  parseDependsTokens (pySplit dependsString)

/-! ## `Package.get_field_recursive` (src/chiselc.py, lines 39-53)

```python
def get_field_recursive(self, fieldname):
  # do a BFS over dependencies
  fringe = self.get_dependencies()
  field_contents = self.get_field(fieldname, True)
  seen = set()
  while fringe:
    dependency_package = fringe.pop(0)
    field_contents.extend(dependency_package.get_field(fieldname, False))
    for dep in dependency_package.get_dependencies():
      if dep.get_pkgname() not in seen:
        seen.add(dep.get_pkgname())
        fringe.append(dep)
  return field_contents
```
-/

/-- A dependency graph for one fixed queried field: `deps` is
`get_dependencies` (as package names) and `fieldOf p incl` is
`get_field(fieldname, incl)`, the package's own non-recursive contribution. -/
structure PkgGraph where
  deps : String → List String
  fieldOf : String → Bool → List String

/-- The inner for-loop of `get_field_recursive`: for each direct dependency
whose name is not in `seen`, add the name to `seen` and append the dependency
to the back of the fringe. -/
def enqueueDeps : List String → List String → List String → List String × List String
  | [], seen, fringe => (seen, fringe)
  | d :: ds, seen, fringe =>
    if d ∈ seen then enqueueDeps ds seen fringe
    else enqueueDeps ds (d :: seen) (fringe ++ [d])

/-- The while-loop of `get_field_recursive`. The Python loop carries no fuel;
`fuel` bounds the number of iterations the embedding may take and `none`
marks the bound being hit with the loop still running. -/
def getFieldRecursiveLoop (G : PkgGraph) :
    Nat → List String → List String → List String → Option (List String)
  | _, [], _, acc => some acc
  | 0, _ :: _, _, _ => none
  | fuel + 1, p :: fringe, seen, acc =>
    let acc' := acc ++ G.fieldOf p false
    let sf := enqueueDeps (G.deps p) seen fringe
    getFieldRecursiveLoop G fuel sf.2 sf.1 acc'

/-- Method `Package.get_field_recursive` seeded at package `self`: the fringe starts
as the seed's direct dependencies, the accumulator as the seed's own field
contribution, and `seen` starts empty. -/
def get_field_recursive (G : PkgGraph) (self : String) (fuel : Nat) :
    Option (List String) :=
  getFieldRecursiveLoop G fuel (G.deps self) [] (G.fieldOf self true)

/-- The graph A ↔ B where each package contributes its own name as the queried
field's value. -/
def cycleGraphAB : PkgGraph where
  deps p := if p = "A" then ["B"] else if p = "B" then ["A"] else []
  fieldOf p _ := [p]

/-- The cyclic graph with a repeated edge A → B, B → A used as the concrete
termination witness. -/
def cycleGraphABRep : PkgGraph where
  deps p := if p = "A" then ["B", "B"] else if p = "B" then ["A"] else []
  fieldOf p _ := [p]

/-! ## Python `re.match` for the two ebuild-variable patterns

Both revisions match ebuild lines with a regular expression whose end-of-line
anchor `$` is placed *before* the closing quote:

  - packaged revision (`src/chiselc/chiselc.py`, `__init__`):
    `^\s*([^=\s])+\s*=\s*"([^"]*)\s*$"`
  - legacy revision (`src/chiselc.py`, `get_field`):
    `^\s*SCALACOPTS\s*=\s*"([^"]*)\s*$"`

The matchers below enumerate every backtracking alternative of each atom,
greedy (longest consumption) first, as Python's engine does; a pair is
(consumed characters, remaining characters). -/

/-- All ways a greedy `p*` can consume a prefix, longest first. -/
def starSplits (p : Char → Bool) : List Char → List (List Char × List Char)
  | [] => [([], [])]
  | c :: cs =>
    (if p c then (starSplits p cs).map (fun r => (c :: r.1, r.2)) else [])
      ++ [([], c :: cs)]

/-- All ways a greedy `p+` can consume a prefix, longest first. -/
def plusSplits (p : Char → Bool) : List Char → List (List Char × List Char)
  | [] => []
  | c :: cs =>
    if p c then (starSplits p cs).map (fun r => (c :: r.1, r.2)) else []

/-- A single-character atom. -/
def charSplit (p : Char → Bool) : List Char → List (List Char × List Char)
  | [] => []
  | c :: cs => if p c then [([c], cs)] else []

/-- A literal-string atom. -/
def litSplit (lit : List Char) (l : List Char) : List (List Char × List Char) :=
  if lit.isPrefixOf l then [(lit, l.drop lit.length)] else []

/-- The `$` anchor (no `re.MULTILINE`): consumes nothing and matches only at
the end of the string or just before a trailing newline. -/
def dollarSplits (l : List Char) : List (List Char × List Char) :=
  if l = [] ∨ l = ['\n'] then [([], l)] else []

/-- Model of `re.match(r'^\s*([^=\s])+\s*=\s*"([^"]*)\s*$"', line)`: every backtracking
alternative, each yielding (group 1, group 2). Group 1 is a repeated
one-character group, so it holds the character of its last iteration. -/
def ebuildVarMatches (line : List Char) : List (String × String) :=
  (starSplits pyIsSpace line).flatMap (fun s1 =>
  (plusSplits (fun c => !(c == '=' || pyIsSpace c)) s1.2).flatMap (fun s2 =>
  (starSplits pyIsSpace s2.2).flatMap (fun s3 =>
  (charSplit (fun c => c == '=') s3.2).flatMap (fun s4 =>
  (starSplits pyIsSpace s4.2).flatMap (fun s5 =>
  (charSplit (fun c => c == '"') s5.2).flatMap (fun s6 =>
  (starSplits (fun c => !(c == '"')) s6.2).flatMap (fun s7 =>
  (starSplits pyIsSpace s7.2).flatMap (fun s8 =>
  (dollarSplits s8.2).flatMap (fun s9 =>
  (charSplit (fun c => c == '"') s9.2).map (fun _ =>
    (String.mk [s2.1.getLastD ' '], String.mk s7.1)))))))))))

/-- The packaged revision's per-line `re.match`: Python keeps the first
(greediest) alternative. -/
def reMatchEbuildVar (line : String) : Option (String × String) :=
  (ebuildVarMatches line.data).head?

/-- Model of `re.match(r'^\s*SCALACOPTS\s*=\s*"([^"]*)\s*$"', line)` of the legacy
revision's `get_field`, yielding group 1 for every backtracking alternative. -/
def scalacoptsMatches (line : List Char) : List String :=
  (starSplits pyIsSpace line).flatMap (fun s1 =>
  (litSplit "SCALACOPTS".data s1.2).flatMap (fun s2 =>
  (starSplits pyIsSpace s2.2).flatMap (fun s3 =>
  (charSplit (fun c => c == '=') s3.2).flatMap (fun s4 =>
  (starSplits pyIsSpace s4.2).flatMap (fun s5 =>
  (charSplit (fun c => c == '"') s5.2).flatMap (fun s6 =>
  (starSplits (fun c => !(c == '"')) s6.2).flatMap (fun s7 =>
  (starSplits pyIsSpace s7.2).flatMap (fun s8 =>
  (dollarSplits s8.2).flatMap (fun s9 =>
  (charSplit (fun c => c == '"') s9.2).map (fun _ =>
    String.mk s7.1))))))))))

/-- The legacy revision's per-line `re.match` for `SCALACOPTS`. -/
def reMatchScalacopts (line : String) : Option String :=
  (scalacoptsMatches line.data).head?

/-! ## `PortageInstalledPackage.__init__` -/

/-- The ebuild-variable loop of the packaged revision's
`PortageInstalledPackage.__init__`: walk the ebuild lines; a matched line
whose variable name is already recorded exits 1 with a duplicate-variable
diagnostic, otherwise the variable is recorded with its whitespace-split
value. -/
def parseEbuildVars (packageName : String) :
    List String → List (String × List String)
      → Except (Nat × String) (List (String × List String))
  | [], vars => .ok vars
  | line :: rest, vars =>
    match reMatchEbuildVar line with
    | none => parseEbuildVars packageName rest vars
    | some (varName, value) =>
      if varName ∈ vars.map Prod.fst then
        .error (1, "Package '" ++ packageName ++ "' has variable '"
                   ++ varName ++ "' defined twice")
      else parseEbuildVars packageName rest (vars ++ [(varName, pySplit value)])

/-- A resolved Package Record of the legacy revision: name plus its metadata
store location. -/
structure PkgRecord where
  package_name : String
  pkgdb_path : String
deriving DecidableEq

/-- A resolved Package Record of the packaged revision: name plus the parsed
ebuild variables. -/
structure PkgRecordPackaged where
  package_name : String
  ebuild_vars : List (String × List String)
deriving DecidableEq

/-- Constructor `PortageInstalledPackage.__init__` of the legacy revision
(src/chiselc.py, lines 78-88): missing metadata-store directory is
`sys.exit(1)` with a diagnostic naming the package and the path. -/
def portageLookupLegacy (isDir : String → Bool) (pkgdbPath packageName : String) :
    Except (Nat × String) PkgRecord :=
  let path := pathJoin pkgdbPath packageName
  if isDir path then .ok ⟨packageName, path⟩
  else .error (1, "Package '" ++ packageName ++ "' isn't installed (can't find "
                  ++ path ++ ")")

/-- Constructor `PortageInstalledPackage.__init__` of the packaged revision
(src/chiselc/chiselc.py, lines 67-95): the same missing-directory check, then
the ebuild-variable parsing loop. -/
def portageLookupPackaged (isDir : String → Bool) (readLines : String → List String)
    (pkgdbPath packageName : String) : Except (Nat × String) PkgRecordPackaged :=
  let path := pathJoin pkgdbPath packageName
  if isDir path then
    let ebuildFilepath := pathJoin (pathJoin pkgdbPath packageName)
        (get_noncategory_pkgname packageName ++ ".ebuild")
    match parseEbuildVars packageName (readLines ebuildFilepath) [] with
    | .ok vars => .ok ⟨packageName, vars⟩
    | .error e => .error e
  else .error (1, "Package '" ++ packageName ++ "' isn't installed (can't find "
                  ++ path ++ ")")

/-! ## `PortageInstalledPackage.get_field` -/

/-- Result of a `get_field` call: a value list, the raised
`NotImplementedError("Unknown field ...")`, or a `sys.exit`. -/
inductive FieldResult where
  | ok (values : List String)
  | unknownField (msg : String)
  | fatal (code : Nat) (diag : String)
deriving DecidableEq

/-- The `for ebuild_line in ebuild_file` loop of the legacy `get_field`:
group 1 of the first line matching the `SCALACOPTS` pattern. -/
def findScalacopts : List String → Option String
  | [] => none
  | line :: rest =>
    match reMatchScalacopts line with
    | some g => some g
    | none => findScalacopts rest

/-- Method `PortageInstalledPackage.get_field` of the legacy revision
(src/chiselc.py, lines 109-127). -/
def get_field_legacy (pathExists : String → Bool) (readLines : String → List String)
    (pkgdbPath pkgjarPath packageName fieldname : String) : FieldResult :=
  if fieldname = "classpath" then
    .ok [pathJoin pkgjarPath (get_noncategory_pkgname packageName ++ ".jar")]
  else if fieldname = "scalacopts" then
    let ebuildFilepath := pathJoin (pathJoin pkgdbPath packageName)
        (get_noncategory_pkgname packageName ++ ".ebuild")
    if pathExists ebuildFilepath then
      match findScalacopts (readLines ebuildFilepath) with
      | some g => .ok (pySplit g)
      | none => .ok []
    else
      .fatal 1 ("Package '" ++ packageName ++ "' missing ebuild file "
                ++ ebuildFilepath)
  else
    .unknownField ("Unknown field '" ++ fieldname ++ "'")

/-- Method `PortageInstalledPackage.get_field` of the packaged revision
(src/chiselc/chiselc.py, lines 115-120): only `classpath` is known. -/
def get_field_packaged (pkgjarPath packageName fieldname : String) : FieldResult :=
  if fieldname = "classpath" then
    .ok [pathJoin pkgjarPath (get_noncategory_pkgname packageName ++ ".jar")]
  else
    .unknownField ("Unknown field '" ++ fieldname ++ "'")

/-! ## Classpath override merge (src/chiselc/chiselc.py, lines 203-218)

```python
classpaths = []
classpaths_args_basenames = [os.path.basename(classpath)
                             for classpath in args.classpath]
for package_classpath in package_classpaths:
  if os.path.basename(package_classpath) in classpaths_args_basenames:
    logging.info("Dropping package classpath %s (overridden by --classpath argument)", package_classpath)
  else:
    classpaths.append(package_classpath)
classpaths.extend([os.path.abspath(classpath)
                   for classpath in args.classpath])
```
-/

/-- The override loop: keep the package-derived entries whose basename is not
caller-supplied, and record one diagnostic per dropped entry. Returns
(kept entries, diagnostics), each in original order. -/
def mergeClasspathsLoop (argBasenames : List String) :
    List String → List String × List String
  | [] => ([], [])
  | p :: ps =>
    let r := mergeClasspathsLoop argBasenames ps
    if basename p ∈ argBasenames then
      (r.1, ("Dropping package classpath " ++ p
             ++ " (overridden by --classpath argument)") :: r.2)
    else
      (p :: r.1, r.2)

/-- The whole merge: the surviving package-derived entries followed by the
caller-supplied entries made absolute (`os.path.abspath` is passed in as
`absPath` since it closes over the process working directory), paired with
the drop diagnostics. -/
def mergeClasspaths (absPath : String → String)
    (packageDerived callerSupplied : List String) :
    List String × List String :=
  let r := mergeClasspathsLoop (callerSupplied.map basename) packageDerived
  (r.1 ++ callerSupplied.map absPath, r.2)

/-! ## scalacopts assembly -/

/-- The `for package in packages: scalacopts.extend(package.get_field_recursive('scalacopts'))`
loop of the legacy revision, concatenating the BFS aggregation of every seed
package (with explicit fuel). -/
def concatFieldRecursive (G : PkgGraph) (fuel : Nat) :
    List String → Option (List String)
  | [] => some []
  | s :: ss => do
    let h ← get_field_recursive G s fuel
    let t ← concatFieldRecursive G fuel ss
    pure (h ++ t)

/-- The legacy revision's scalacopts assembly (src/chiselc.py, lines 177-184):
dependency-aggregated options, then the caller's `--scalacOpts`, then every
option prefixed with `-`. -/
def assembleScalacoptsLegacy (G : PkgGraph) (fuel : Nat) (seeds : List String)
    (callerOpts : List String) : Option (List String) := do
  let agg ← concatFieldRecursive G fuel seeds
  pure ((agg ++ callerOpts).map (fun o => "-" ++ o))

/-- The packaged revision's scalacopts assembly (src/chiselc/chiselc.py,
lines 248-249): `scalacopts = args.scalacOpts` then the `-` prefix map — no
dependency aggregation is performed. -/
def assembleScalacoptsPackaged (callerOpts : List String) : List String :=
  callerOpts.map (fun o => "-" ++ o)

/-- The end-to-end scenario of the spec: a seed with one dependency whose own
compiler-option field is ["deprecation"] and a seed with no own options. -/
def scalacoptsExampleGraph : PkgGraph where
  deps p := if p = "seed" then ["dep"] else []
  fieldOf p _ := if p = "dep" then ["deprecation"] else []

/-! ## Build pipeline tail: compiler invocation and packaging -/

/-- External-process invocations observable in the pipeline tail. -/
inductive PipeEvent where
  | runScalac
  | runJar
deriving DecidableEq

/-- Final outcome of the pipeline tail. -/
inductive PipeOutcome where
  | exit (code : Nat)
  | done
deriving DecidableEq

/-- The tail of `main` from the scalac invocation on (both revisions,
src/chiselc/chiselc.py lines 264-296): scalac runs; a nonzero return code is
`sys.exit(1)` before the class-file enumeration and the `jar` packaging step;
otherwise, when an output JAR was requested, `jar` runs and a nonzero return
code is `sys.exit(1)`. Returns the invocation trace and the outcome. -/
def compileAndPackage (scalacReturncode : Int) (outputJar : Option String)
    (jarReturncode : Int) : List PipeEvent × PipeOutcome :=
  if scalacReturncode ≠ 0 then
    ([.runScalac], .exit 1)
  else
    match outputJar with
    | none => ([.runScalac], .done)
    | some _ =>
      if jarReturncode ≠ 0 then ([.runScalac, .runJar], .exit 1)
      else ([.runScalac, .runJar], .done)

/-! ## `copy_dir` (src/chiselc/chiselc.py, lines 122-138)

```python
for filename in os.listdir(src):
  try:
    shutil.copytree(os.path.join(src, filename), os.path.join(dst, filename))
  except OSError as e:
    if e.errno == errno.ENOTDIR:
      shutil.copy(os.path.join(src, filename), os.path.join(dst, filename))
    else:
      raise e
```
-/

/-- Result of one `shutil.copytree` / `shutil.copy` call. -/
inductive CopyOutcome where
  | success
  | oserror (errno : Nat)
deriving DecidableEq

/-- Value of `errno.ENOTDIR` on Linux. -/
def ENOTDIR : Nat := 20

/-- The copying side effects available to `copy_dir`. -/
structure CopyFS where
  copytree : String → String → CopyOutcome
  copy : String → String → CopyOutcome

/-- One iteration of the `copy_dir` loop for a single directory entry:
`copytree`, retried as a plain `copy` exactly on `ENOTDIR`, every other
`OSError` re-raised. Returns (whether the plain-copy retry was attempted,
the propagated errno if any). -/
def copyDirEntry (fs : CopyFS) (srcPath dstPath : String) : Bool × Option Nat :=
  match fs.copytree srcPath dstPath with
  | .success => (false, none)
  | .oserror e =>
    if e = ENOTDIR then
      match fs.copy srcPath dstPath with
      | .success => (true, none)
      | .oserror e2 => (true, some e2)
    else (false, some e)

/-- The whole `copy_dir` loop over `os.listdir(src)`: the first propagated
error aborts the loop (an uncaught exception leaves the `for`). -/
def copy_dir (fs : CopyFS) (src dst : String) : List String → Option Nat
  | [] => none
  | filename :: rest =>
    match copyDirEntry fs (pathJoin src filename) (pathJoin dst filename) with
    | (_, some e) => some e
    | (_, none) => copy_dir fs src dst rest

/-! ## Lemmas: the ebuild-variable patterns never match

The `$` anchor sits before the closing `"` in both patterns, so after `$`
succeeds (remainder empty or a lone trailing newline) the required closing
quote can never be matched. -/

theorem flatMap_nil {α β : Type} (l : List α) (f : α → List β)
    (h : ∀ x, f x = []) : l.flatMap f = [] := by
  induction l with
  | nil => rfl
  | cons a l ih => simp [h, ih]

theorem dollarSplits_quote_nil {β : Type} (f : List Char × List Char → β)
    (r : List Char) :
    (dollarSplits r).flatMap
      (fun s9 => (charSplit (fun c => c == '"') s9.2).map f) = [] := by
  by_cases h : r = [] ∨ r = ['\n']
  · rcases h with h | h <;> subst h <;> simp [dollarSplits, charSplit]
  · simp [dollarSplits, h]

theorem ebuildVarMatches_nil (l : List Char) : ebuildVarMatches l = [] := by
  unfold ebuildVarMatches
  apply flatMap_nil; intro s1
  apply flatMap_nil; intro s2
  apply flatMap_nil; intro s3
  apply flatMap_nil; intro s4
  apply flatMap_nil; intro s5
  apply flatMap_nil; intro s6
  apply flatMap_nil; intro s7
  apply flatMap_nil; intro s8
  exact dollarSplits_quote_nil _ s8.2

theorem reMatchEbuildVar_none (line : String) : reMatchEbuildVar line = none := by
  simp [reMatchEbuildVar, ebuildVarMatches_nil]

theorem scalacoptsMatches_nil (l : List Char) : scalacoptsMatches l = [] := by
  unfold scalacoptsMatches
  apply flatMap_nil; intro s1
  apply flatMap_nil; intro s2
  apply flatMap_nil; intro s3
  apply flatMap_nil; intro s4
  apply flatMap_nil; intro s5
  apply flatMap_nil; intro s6
  apply flatMap_nil; intro s7
  apply flatMap_nil; intro s8
  exact dollarSplits_quote_nil _ s8.2

theorem reMatchScalacopts_none (line : String) : reMatchScalacopts line = none := by
  simp [reMatchScalacopts, scalacoptsMatches_nil]

/-- Since no line ever matches the variable pattern, the parsing loop records
nothing and never reports a duplicate. -/
theorem parseEbuildVars_ok (packageName : String) :
    ∀ lines vars, parseEbuildVars packageName lines vars = .ok vars := by
  intro lines
  induction lines with
  | nil => intro vars; rfl
  | cons line rest ih =>
    intro vars
    simp [parseEbuildVars, reMatchEbuildVar_none, ih]

/-! ## Lemmas about the BFS loop -/

theorem pySplit_example : pySplit "  =a-1.0 \t =b-2.0\n" = ["=a-1.0", "=b-2.0"] := by
  decide

theorem parse_portage_depends_example :
    parse_portage_depends "=a-1.0 =b-2.0" = .ok ["a-1.0", "b-2.0"] := by
  rfl

theorem basename_example : basename "/pkg/a.jar" = "a.jar" := by decide

/-- Inserting a fresh element into `seen` shrinks the unseen part of the
universe by one. -/
theorem filter_notMem_cons (U : Finset String) (seen : List String) (d : String)
    (hd : d ∈ U) (hds : d ∉ seen) :
    (U.filter (fun x => x ∉ d :: seen)).card + 1
      = (U.filter (fun x => x ∉ seen)).card := by
  have hset : U.filter (fun x => x ∉ d :: seen)
      = (U.filter (fun x => x ∉ seen)).erase d := by
    ext x
    simp only [Finset.mem_filter, Finset.mem_erase, List.mem_cons]
    tauto
  have hmem : d ∈ U.filter (fun x => x ∉ seen) := by
    simp [hd, hds]
  rw [hset, Finset.card_erase_of_mem hmem]
  have := Finset.card_pos.mpr ⟨d, hmem⟩
  omega

/-- Lemma: `enqueueDeps` keeps `seen` duplicate-free and inside the universe, and
preserves the loop measure `|unseen| + |fringe|`. -/
theorem enqueueDeps_measure (U : Finset String) :
    ∀ (ds seen fringe : List String), (∀ d ∈ ds, d ∈ U) → seen.Nodup →
      (∀ x ∈ seen, x ∈ U) →
      (enqueueDeps ds seen fringe).1.Nodup ∧
      (∀ x ∈ (enqueueDeps ds seen fringe).1, x ∈ U) ∧
      (U.filter (fun x => x ∉ (enqueueDeps ds seen fringe).1)).card
          + (enqueueDeps ds seen fringe).2.length
        = (U.filter (fun x => x ∉ seen)).card + fringe.length
  | [], seen, fringe, _, hnd, hsub => by
    exact ⟨hnd, hsub, rfl⟩
  | d :: ds, seen, fringe, hds, hnd, hsub => by
    by_cases hmem : d ∈ seen
    · simp only [enqueueDeps, if_pos hmem]
      exact enqueueDeps_measure U ds seen fringe (fun x hx => hds x (by simp [hx])) hnd hsub
    · simp only [enqueueDeps, if_neg hmem]
      have hdU : d ∈ U := hds d (by simp)
      have hnd' : (d :: seen).Nodup := List.nodup_cons.mpr ⟨hmem, hnd⟩
      have hsub' : ∀ x ∈ d :: seen, x ∈ U := by
        intro x hx
        rcases List.mem_cons.mp hx with h | h
        · exact h ▸ hdU
        · exact hsub x h
      obtain ⟨h1, h2, h3⟩ := enqueueDeps_measure U ds (d :: seen) (fringe ++ [d])
        (fun x hx => hds x (by simp [hx])) hnd' hsub'
      refine ⟨h1, h2, ?_⟩
      rw [h3, List.length_append]
      have := filter_notMem_cons U seen d hdU hmem
      simp only [List.length_cons, List.length_nil]
      omega

/-- Fuel exceeding the loop measure `|unseen universe| + |fringe|` suffices:
the BFS while-loop finishes before the fuel runs out. -/
theorem getFieldRecursiveLoop_total (G : PkgGraph) (U : Finset String)
    (hU : ∀ p, ∀ d ∈ G.deps p, d ∈ U) :
    ∀ (fuel : Nat) (fringe seen acc : List String), seen.Nodup →
      (∀ x ∈ seen, x ∈ U) →
      (U.filter (fun x => x ∉ seen)).card + fringe.length < fuel →
      (getFieldRecursiveLoop G fuel fringe seen acc).isSome := by
  intro fuel
  induction fuel with
  | zero => intro fringe seen acc _ _ h; omega
  | succ n ih =>
    intro fringe seen acc hnd hsub h
    match fringe with
    | [] => simp [getFieldRecursiveLoop]
    | p :: fr =>
      simp only [getFieldRecursiveLoop]
      obtain ⟨h1, h2, h3⟩ := enqueueDeps_measure U (G.deps p) seen fr (hU p) hnd hsub
      apply ih _ _ _ h1 h2
      simp only [List.length_cons] at h
      omega

/-! ## Claim C1 and C2 -/

/-- C1: the claim says each distinct package identifier contributes its own
field values exactly once, and a seed reachable again as a transitive
dependency contributes once total. The code initialises `seen` empty (neither
the seed nor the initial fringe is marked seen), so on the cycle A → B → A the
seed A contributes twice and its direct dependency B contributes twice: the
returned sequence is ["A", "B", "A", "B"]. -/
theorem get_field_recursive_cycle_double_counts :
    ∃ l, get_field_recursive cycleGraphAB "A" 5 = some l ∧
      l = ["A", "B", "A", "B"] ∧ l.count "A" = 2 ∧ l.count "B" = 2 :=
  ⟨["A", "B", "A", "B"], rfl, rfl, by decide, by decide⟩

/-- C2: for every dependency graph whose dependency lists stay inside a finite
universe `U` of package identifiers (cycles and repeated edges allowed), the
BFS `get_field_recursive` terminates: fuel `|U| + |initial fringe| + 1`
already suffices for the loop to finish and return a (finite) list. -/
theorem getFieldRecursive_terminates (G : PkgGraph) (U : Finset String)
    (self : String) (hU : ∀ p, ∀ d ∈ G.deps p, d ∈ U) :
    ∃ result : List String,
      get_field_recursive G self (U.card + (G.deps self).length + 1)
        = some result := by
  have h := getFieldRecursiveLoop_total G U hU
      (U.card + (G.deps self).length + 1) (G.deps self) [] (G.fieldOf self true)
      (by simp) (by simp) (by simp)
  rw [get_field_recursive]
  exact Option.isSome_iff_exists.mp h

/-- Witness for C2 at the cyclic graph with a repeated edge (A → B twice,
B → A). -/
theorem getFieldRecursive_terminates_witness :
    ∃ result : List String,
      get_field_recursive cycleGraphABRep "A"
          (({"A", "B"} : Finset String).card + (cycleGraphABRep.deps "A").length + 1)
        = some result :=
  getFieldRecursive_terminates cycleGraphABRep {"A", "B"} "A" (by
    intro p d hd
    simp only [cycleGraphABRep] at hd
    split_ifs at hd <;> simp_all)

/-! ## Claim C3: classpath override merge -/

/-- The override loop keeps exactly the package-derived entries whose basename
is not caller-supplied and logs one drop diagnostic per removed entry, both in
original order. -/
theorem mergeClasspathsLoop_spec (argBasenames : List String) :
    ∀ ps : List String,
      (mergeClasspathsLoop argBasenames ps).1
          = ps.filter (fun p => basename p ∉ argBasenames) ∧
      (mergeClasspathsLoop argBasenames ps).2
          = (ps.filter (fun p => basename p ∈ argBasenames)).map
              (fun p => "Dropping package classpath " ++ p
                        ++ " (overridden by --classpath argument)")
  | [] => ⟨rfl, rfl⟩
  | p :: ps => by
    obtain ⟨h1, h2⟩ := mergeClasspathsLoop_spec argBasenames ps
    by_cases h : basename p ∈ argBasenames <;>
      simp [mergeClasspathsLoop, h, h1, h2]

/-- C3: the merged classpath is exactly the package-derived entries whose base
filename is not among the caller-supplied base filenames, in order, followed
by the caller-supplied entries absolutized, in order, with one drop diagnostic
per overridden package-derived entry; in particular the spec's example merge
holds. -/
theorem mergeClasspaths_spec (absPath : String → String)
    (packageDerived callerSupplied : List String) :
    (mergeClasspaths absPath packageDerived callerSupplied).1
        = packageDerived.filter
            (fun p => basename p ∉ callerSupplied.map basename)
          ++ callerSupplied.map absPath
    ∧ (mergeClasspaths absPath packageDerived callerSupplied).2
        = (packageDerived.filter
            (fun p => basename p ∈ callerSupplied.map basename)).map
            (fun p => "Dropping package classpath " ++ p
                      ++ " (overridden by --classpath argument)")
    ∧ (mergeClasspaths absPath ["/pkg/a.jar", "/pkg/b.jar"] ["./override/a.jar"]).1
        = ["/pkg/b.jar", absPath "./override/a.jar"]
    ∧ (mergeClasspaths absPath ["/pkg/a.jar", "/pkg/b.jar"] ["./override/a.jar"]).2.length
        = 1 := by
  obtain ⟨h1, h2⟩ := mergeClasspathsLoop_spec (callerSupplied.map basename) packageDerived
  exact ⟨by simp [mergeClasspaths, h1], by simp [mergeClasspaths, h2], rfl, rfl⟩

/-! ## Claim C4: scalacopts assembly -/

/-- C4: on the spec's end-to-end scenario (one dependency contributing
["deprecation"], caller option "feature") the legacy revision assembles
["-deprecation", "-feature"] as the claim states, but the packaged revision's
assembly (src/chiselc/chiselc.py lines 248-249) never aggregates options from
the dependency closure and passes only ["-feature"] to the compiler. -/
theorem scalacopts_assembly_divergence :
    assembleScalacoptsLegacy scalacoptsExampleGraph 3 ["seed"] ["feature"]
        = some ["-deprecation", "-feature"]
    ∧ assembleScalacoptsPackaged ["feature"] = ["-feature"]
    ∧ assembleScalacoptsPackaged ["feature"] ≠ ["-deprecation", "-feature"] :=
  ⟨rfl, rfl, by decide⟩

/-! ## Claim C5: missing package is fatal -/

/-- C5: in both revisions, a package identifier whose metadata-store directory
does not exist makes the constructor exit with status 1 and a diagnostic that
names the package and the expected location; no Package Record is produced. -/
theorem portageLookup_missing_fatal
    (isDir : String → Bool) (readLines : String → List String)
    (pkgdbPath packageName : String)
    (h : isDir (pathJoin pkgdbPath packageName) = false) :
    portageLookupLegacy isDir pkgdbPath packageName
        = .error (1, "Package '" ++ packageName ++ "' isn't installed (can't find "
                     ++ pathJoin pkgdbPath packageName ++ ")")
    ∧ portageLookupPackaged isDir readLines pkgdbPath packageName
        = .error (1, "Package '" ++ packageName ++ "' isn't installed (can't find "
                     ++ pathJoin pkgdbPath packageName ++ ")")
    ∧ packageName.data
        <:+: ("Package '" ++ packageName ++ "' isn't installed (can't find "
              ++ pathJoin pkgdbPath packageName ++ ")").data
    ∧ (pathJoin pkgdbPath packageName).data
        <:+: ("Package '" ++ packageName ++ "' isn't installed (can't find "
              ++ pathJoin pkgdbPath packageName ++ ")").data := by
  refine ⟨by simp [portageLookupLegacy, h], by simp [portageLookupPackaged, h], ?_, ?_⟩
  · exact ⟨"Package '".data,
      ("' isn't installed (can't find " ++ pathJoin pkgdbPath packageName ++ ")").data,
      by simp [String.data_append]⟩
  · exact ⟨("Package '" ++ packageName ++ "' isn't installed (can't find ").data,
      ")".data, by simp [String.data_append]⟩

/-- Witness for C5 at a concrete store with no directories. -/
theorem portageLookup_missing_fatal_witness :
    portageLookupLegacy (fun _ => false) "/var/db/pkg" "dev-scala/foo-1.0"
        = .error (1, "Package 'dev-scala/foo-1.0' isn't installed (can't find /var/db/pkg/dev-scala/foo-1.0)") := by
  have h := portageLookup_missing_fatal (fun _ => false) (fun _ => [])
    "/var/db/pkg" "dev-scala/foo-1.0" rfl
  rw [h.1]
  rfl

/-! ## Claim C6: compiler failure aborts before packaging -/

/-- C6: a nonzero compiler return code makes the pipeline exit with status 1
and the archiver packaging step never runs, even when an output JAR was
requested. -/
theorem compileAndPackage_abort (scalacReturncode : Int) (outputJar : Option String)
    (jarReturncode : Int) (h : scalacReturncode ≠ 0) :
    compileAndPackage scalacReturncode outputJar jarReturncode
        = ([.runScalac], .exit 1)
    ∧ PipeEvent.runJar
        ∉ (compileAndPackage scalacReturncode outputJar jarReturncode).1 := by
  constructor <;> simp [compileAndPackage, h]

/-- Witness for C6: compiler exit code 2 with an output JAR requested. -/
theorem compileAndPackage_abort_witness :
    compileAndPackage 2 (some "out.jar") 0 = ([.runScalac], .exit 1)
    ∧ PipeEvent.runJar ∉ (compileAndPackage 2 (some "out.jar") 0).1 :=
  compileAndPackage_abort 2 (some "out.jar") 0 (by decide)

/-! ## Claim C7: `get_field` known and unknown names -/

/-- C7 counterexample: in the packaged revision, `get_field('scalacopts')`
raises the unknown-field error instead of returning a value sequence. -/
theorem get_field_packaged_scalacopts_unknown :
    get_field_packaged "/jars" "dev-scala/foo-1.0" "scalacopts"
        = .unknownField "Unknown field 'scalacopts'"
    ∧ ∀ vs, get_field_packaged "/jars" "dev-scala/foo-1.0" "scalacopts"
        ≠ .ok vs := by
  refine ⟨rfl, ?_⟩
  intro vs h
  simp [get_field_packaged] at h

/-- C7 amended: in the packaged revision, `get_field` returns a value sequence
for `classpath` and raises the unknown-field error for every other name,
`scalacopts` included; in the legacy revision, `classpath` returns a value
sequence, `scalacopts` returns a value sequence when the package's ebuild file
exists and exits with status 1 when it is missing, and every other name raises
the unknown-field error. -/
theorem get_field_spec (pathExists : String → Bool) (readLines : String → List String)
    (pkgdbPath pkgjarPath packageName fieldname : String) :
    get_field_packaged pkgjarPath packageName "classpath"
        = .ok [pathJoin pkgjarPath (get_noncategory_pkgname packageName ++ ".jar")]
    ∧ (fieldname ≠ "classpath" →
        get_field_packaged pkgjarPath packageName fieldname
          = .unknownField ("Unknown field '" ++ fieldname ++ "'"))
    ∧ get_field_legacy pathExists readLines pkgdbPath pkgjarPath packageName "classpath"
        = .ok [pathJoin pkgjarPath (get_noncategory_pkgname packageName ++ ".jar")]
    ∧ (pathExists (pathJoin (pathJoin pkgdbPath packageName)
          (get_noncategory_pkgname packageName ++ ".ebuild")) = true →
        ∃ vs, get_field_legacy pathExists readLines pkgdbPath pkgjarPath
            packageName "scalacopts" = .ok vs)
    ∧ (pathExists (pathJoin (pathJoin pkgdbPath packageName)
          (get_noncategory_pkgname packageName ++ ".ebuild")) = false →
        get_field_legacy pathExists readLines pkgdbPath pkgjarPath
            packageName "scalacopts"
          = .fatal 1 ("Package '" ++ packageName ++ "' missing ebuild file "
              ++ pathJoin (pathJoin pkgdbPath packageName)
                   (get_noncategory_pkgname packageName ++ ".ebuild")))
    ∧ (fieldname ≠ "classpath" → fieldname ≠ "scalacopts" →
        get_field_legacy pathExists readLines pkgdbPath pkgjarPath
            packageName fieldname
          = .unknownField ("Unknown field '" ++ fieldname ++ "'")) := by
  refine ⟨rfl, ?_, rfl, ?_, ?_, ?_⟩
  · intro h
    simp [get_field_packaged, h]
  · intro h
    simp only [get_field_legacy, if_neg (by decide : ¬ ("scalacopts" = "classpath")),
      if_pos rfl, h, if_pos]
    cases hm : findScalacopts (readLines (pathJoin (pathJoin pkgdbPath packageName)
        (get_noncategory_pkgname packageName ++ ".ebuild"))) with
    | none => exact ⟨[], by simp [hm]⟩
    | some g => exact ⟨pySplit g, by simp [hm]⟩
  · intro h
    simp [get_field_legacy, h]
  · intro h1 h2
    simp [get_field_legacy, h1, h2]

/-- Witness for C7 at concrete inputs: the unknown-field case of the packaged
revision, and the missing-ebuild and unknown-field cases of the legacy
revision. -/
theorem get_field_spec_witness :
    get_field_packaged "/jars" "cat/foo-1.0" "scalacopts"
        = .unknownField "Unknown field 'scalacopts'"
    ∧ get_field_legacy (fun _ => false) (fun _ => []) "/db" "/jars"
        "cat/foo-1.0" "scalacopts"
        = .fatal 1 "Package 'cat/foo-1.0' missing ebuild file /db/cat/foo-1.0/foo-1.0.ebuild"
    ∧ get_field_legacy (fun _ => true) (fun _ => []) "/db" "/jars"
        "cat/foo-1.0" "sources"
        = .unknownField "Unknown field 'sources'" := by
  have h1 := get_field_spec (fun _ => false) (fun _ => []) "/db" "/jars"
      "cat/foo-1.0" "scalacopts"
  have h2 := get_field_spec (fun _ => true) (fun _ => []) "/db" "/jars"
      "cat/foo-1.0" "sources"
  refine ⟨?_, ?_, ?_⟩
  · rw [h1.2.1 (by decide)]
    rfl
  · rw [h1.2.2.2.2.1 rfl]
    rfl
  · rw [h2.2.2.2.2.2 (by decide) (by decide)]
    rfl

/-! ## Claim C8: dependency specification parsing -/

/-- The token loop: all-`=` token lists are accepted with the marker stripped,
any offending token makes the whole parse raise. -/
theorem parseDependsTokens_spec :
    ∀ ts : List String,
      ((∀ t ∈ ts, pyStartsWith t "=" = true) →
        parseDependsTokens ts = .ok (ts.map pyDropOne)) ∧
      ((∃ t ∈ ts, pyStartsWith t "=" = false) →
        ∃ msg, parseDependsTokens ts = .error msg)
  | [] => ⟨fun _ => rfl, by simp⟩
  | t :: ts => by
    obtain ⟨ih1, ih2⟩ := parseDependsTokens_spec ts
    constructor
    · intro h
      have ht := h t (by simp)
      simp [parseDependsTokens, ht, ih1 (fun x hx => h x (by simp [hx])), Except.map]
    · intro h
      by_cases ht : pyStartsWith t "=" = true
      · obtain ⟨u, hu, hufalse⟩ := h
        rcases List.mem_cons.mp hu with rfl | hu'
        · rw [ht] at hufalse; cases hufalse
        · obtain ⟨msg, hmsg⟩ := ih2 ⟨u, hu', hufalse⟩
          exact ⟨msg, by simp [parseDependsTokens, ht, hmsg, Except.map]⟩
      · exact ⟨"Portage dependencies must have versions explicitly specified, '"
            ++ t ++ "' is not yet supported", by simp [parseDependsTokens, ht]⟩

/-- C8: `parse_portage_depends` raises when some whitespace-separated token
does not begin with `=`, and on inputs where every token begins with `=` it
returns the tokens in order with the leading `=` stripped. -/
theorem parse_portage_depends_spec (s : String) :
    ((∃ t ∈ pySplit s, pyStartsWith t "=" = false) →
      ∃ msg, parse_portage_depends s = .error msg) ∧
    ((∀ t ∈ pySplit s, pyStartsWith t "=" = true) →
      parse_portage_depends s = .ok ((pySplit s).map pyDropOne)) := by
  obtain ⟨h1, h2⟩ := parseDependsTokens_spec (pySplit s)
  exact ⟨h2, h1⟩

/-- Witness for C8: a fully-versioned specification parses with the markers
stripped; a bare package name raises. -/
theorem parse_portage_depends_spec_witness :
    parse_portage_depends "=dev-scala/a-1.0 =dev-scala/b-2.0"
        = .ok ["dev-scala/a-1.0", "dev-scala/b-2.0"]
    ∧ ∃ msg, parse_portage_depends "dev-scala/a" = .error msg := by
  constructor
  · rw [(parse_portage_depends_spec "=dev-scala/a-1.0 =dev-scala/b-2.0").2
      (by decide)]
    rfl
  · exact (parse_portage_depends_spec "dev-scala/a").1
      ⟨"dev-scala/a", by decide, by decide⟩

/-! ## Claim C9: resource-copy retry policy -/

/-- C9: copying one directory entry retries as a plain file copy exactly when
`copytree` fails with `ENOTDIR`; any other `OSError` from `copytree`, and any
`OSError` from the retry copy itself, is propagated unchanged. -/
theorem copyDirEntry_spec (fs : CopyFS) (srcPath dstPath : String) :
    ((copyDirEntry fs srcPath dstPath).1 = true
        ↔ fs.copytree srcPath dstPath = .oserror ENOTDIR)
    ∧ (∀ e, e ≠ ENOTDIR → fs.copytree srcPath dstPath = .oserror e →
        copyDirEntry fs srcPath dstPath = (false, some e))
    ∧ (∀ e2, fs.copytree srcPath dstPath = .oserror ENOTDIR →
        fs.copy srcPath dstPath = .oserror e2 →
        copyDirEntry fs srcPath dstPath = (true, some e2)) := by
  refine ⟨?_, ?_, ?_⟩
  · cases h : fs.copytree srcPath dstPath with
    | success => simp [copyDirEntry, h]
    | oserror e =>
      by_cases he : e = ENOTDIR
      · subst he
        cases hc : fs.copy srcPath dstPath <;> simp [copyDirEntry, h, hc]
      · simp [copyDirEntry, h, he]
  · intro e he h
    simp [copyDirEntry, h, he]
  · intro e2 h hc
    simp [copyDirEntry, h, hc, ENOTDIR]

/-- Witness for C9: a permission error (errno 13) is propagated without a
retry, and an `ENOTDIR` failure (errno 20) triggers the plain-copy retry. -/
theorem copyDirEntry_spec_witness :
    copyDirEntry ⟨fun _ _ => .oserror 13, fun _ _ => .success⟩ "/src/x" "/dst/x"
        = (false, some 13)
    ∧ (copyDirEntry ⟨fun _ _ => .oserror 20, fun _ _ => .success⟩ "/src/x" "/dst/x").1
        = true := by
  constructor
  · exact (copyDirEntry_spec ⟨fun _ _ => .oserror 13, fun _ _ => .success⟩
      "/src/x" "/dst/x").2.1 13 (by decide) rfl
  · exact ((copyDirEntry_spec ⟨fun _ _ => .oserror 20, fun _ _ => .success⟩
      "/src/x" "/dst/x").1).mpr rfl

/-! ## Claim C10: duplicate ebuild variables -/

/-- C10: the claim says an ebuild metadata file defining the same variable
twice makes construction exit with status 1 and a duplicate-variable
diagnostic. The variable pattern places its `$` anchor before the closing
quote, so no line ever matches, no variable is ever recorded, and the
duplicate check is unreachable: on an ebuild containing `FOO="a"` twice the
constructor succeeds with an empty variable table instead of exiting. -/
theorem ebuild_duplicate_not_detected :
    (∀ packageName lines, parseEbuildVars packageName lines [] = .ok [])
    ∧ portageLookupPackaged (fun _ => true)
        (fun _ => ["FOO=\"a\"\n", "FOO=\"a\"\n"]) "/db" "cat/foo-1.0"
        = .ok ⟨"cat/foo-1.0", []⟩ := by
  refine ⟨fun packageName lines => parseEbuildVars_ok packageName lines [], ?_⟩
  simp [portageLookupPackaged, parseEbuildVars_ok]

end Chiselc
